import Mathlib

/-!
Verification of the maintenance_alert repository (src/maintenance_alert.py,
src/maintenance_web.py) against its natural-language specification.

The Python program is shallowly embedded: each function that a claim is about
is translated into an executable Lean definition over explicit state.  Dates
are modelled as proleptic-Gregorian calendar dates exactly as Python's
`datetime.date` (same `toordinal`, same `weekday`, same `timedelta`
subtraction, same `replace(day=1)`); the history JSON log is a list of
records; Excel workbooks are lists of named sheets holding cell lists;
filesystem and SMTP effects are modelled by explicit environment flags and an
event trace.
-/

/-! ## Calendar: Python `datetime.date`

`PyDate` mirrors Python's `datetime.date` (year, month, day).  `toordinal`
is the formula behind `date.toordinal` (days since 0001-01-01, that date
being day 1); `pyWeekday` is `date.weekday()` (Monday = 0: ordinal 1 is a
Monday); `subDays d n` is `d - timedelta(days=n)`, implemented by repeated
previous-day borrowing; `dateLe` is `date.__le__` (lexicographic on
(year, month, day), which on well-formed dates is the calendar order).
-/

structure PyDate where
  year : Nat
  month : Nat
  day : Nat
deriving DecidableEq, Repr

def isLeap (y : Nat) : Bool :=
  (y % 4 == 0 && !(y % 100 == 0)) || y % 400 == 0

def daysInMonth (y m : Nat) : Nat :=
  if m == 2 then (if isLeap y then 29 else 28)
  else if m == 4 || m == 6 || m == 9 || m == 11 then 30
  else 31

def daysBeforeMonth (y m : Nat) : Nat :=
  ((List.range (m - 1)).map (fun i => daysInMonth y (i + 1))).sum

def toordinal (d : PyDate) : Nat :=
  365 * (d.year - 1) + (d.year - 1) / 4 + (d.year - 1) / 400 - (d.year - 1) / 100
    + daysBeforeMonth d.year d.month + d.day

def pyWeekday (d : PyDate) : Nat :=
  (toordinal d + 6) % 7

def prevDay (d : PyDate) : PyDate :=
  if d.day > 1 then ⟨d.year, d.month, d.day - 1⟩
  else if d.month > 1 then ⟨d.year, d.month - 1, daysInMonth d.year (d.month - 1)⟩
  else ⟨d.year - 1, 12, 31⟩

def subDays (d : PyDate) : Nat → PyDate
  | 0 => d
  | n + 1 => prevDay (subDays d n)

def dateLe (a b : PyDate) : Bool :=
  a.year < b.year ||
    (a.year == b.year &&
      (a.month < b.month || (a.month == b.month && a.day ≤ b.day)))

/-! ## Configuration constants (class Config) -/

def STATUS_URGENT : String := "ОБСЛУЖИТЬ"

def STATUS_WARNING : String := "Внимание"

def STATUS_OK : String := "Не требуется"

/-- Config.RECIPIENTS: the fixed recipient list (the further addresses in the
source are commented out). -/
def RECIPIENTS : List String := ["asutp@pavlik-gold.ru"]

/-! ## History records (StatisticsManager)

A record of the maintenance-history JSON log, as written by
`update_statistics`: the `date` key holds an ISO date string, so the string
comparison `record['date'] == today_str` performed by the code coincides
with `PyDate` equality.  The numeric fields are Python ints.
-/

structure MaintRecord where
  date : PyDate
  total_equipment : Int
  ok : Int
  urgent : Int
  warning : Int
  timestamp : String
deriving DecidableEq, Repr

def mkRecord (d : PyDate) (total ok urgent warning : Int) (ts : String) : MaintRecord :=
  ⟨d, total, ok, urgent, warning, ts⟩

/-- The replace-or-append core of `StatisticsManager.update_statistics`
(lines 609-619): `today_record_index = next((i for i, record in
enumerate(history) if record['date'] == today_str), None)`, then either
`history[today_record_index] = maintenance_record` or
`history.append(maintenance_record)`.  Replacing the first record whose date
matches the new record's date, else appending, is exactly that. -/
def setOrAppend (rec : MaintRecord) : List MaintRecord → List MaintRecord
  | [] => [rec]
  | r :: t => if r.date = rec.date then rec :: t else r :: setOrAppend rec t

/-- Lines 621-622: `if len(history) > 120: history = history[-100:]`.
Python's `l[-100:]` on a list longer than 100 keeps the last 100 elements,
i.e. drops `len - 100` from the front. -/
def truncateHistory (h : List MaintRecord) : List MaintRecord :=
  if h.length > 120 then h.drop (h.length - 100) else h

/-- `StatisticsManager.update_statistics` (lines 589-629) restricted to its
effect on `maintenance_history`: build today's record from `total_records`
and `status_counts` (`ok`/`urgent`/`warning` counts), replace the existing
record for today or append, then truncate. -/
def update_statistics (h : List MaintRecord) (today : PyDate)
    (total ok urgent warning : Int) (ts : String) : List MaintRecord :=
  truncateHistory (setOrAppend (mkRecord today total ok urgent warning ts) h)

/-! ## Period bounds and bucket aggregation (StatisticsManager) -/

/-- The dictionary returned by `_compute_period_boundaries` (lines 631-658). -/
structure PeriodBounds where
  yesterday : PyDate
  day_before_yesterday : PyDate
  week_start : PyDate
  last_week_start : PyDate
  last_week_end : PyDate
  prev_prev_week_start : PyDate
  prev_prev_week_end : PyDate
  month_start : PyDate
  last_month_start : PyDate
  last_month_end : PyDate
  prev_prev_month_start : PyDate
  prev_prev_month_end : PyDate
deriving DecidableEq, Repr

/-- `_compute_period_boundaries` (lines 631-658), with
`base - timedelta(days=n)` as `subDays base n`, `base.weekday()` as
`pyWeekday base`, and `x.replace(day=1)` as setting the day field to 1. -/
def computePeriodBoundaries (base : PyDate) : PeriodBounds :=
  let yesterday_local := subDays base 1
  let day_before_yesterday_local := subDays yesterday_local 1
  let week_start_local := subDays base (pyWeekday base)
  let last_week_start_local := subDays week_start_local 7
  let last_week_end_local := subDays week_start_local 1
  let prev_prev_week_start_local := subDays last_week_start_local 7
  let prev_prev_week_end_local := subDays last_week_start_local 1
  let month_start_local : PyDate := ⟨base.year, base.month, 1⟩
  let last_month_end_local := subDays month_start_local 1
  let last_month_start_local : PyDate :=
    ⟨last_month_end_local.year, last_month_end_local.month, 1⟩
  let prev_prev_month_end_local := subDays last_month_start_local 1
  let prev_prev_month_start_local : PyDate :=
    ⟨prev_prev_month_end_local.year, prev_prev_month_end_local.month, 1⟩
  { yesterday := yesterday_local
    day_before_yesterday := day_before_yesterday_local
    week_start := week_start_local
    last_week_start := last_week_start_local
    last_week_end := last_week_end_local
    prev_prev_week_start := prev_prev_week_start_local
    prev_prev_week_end := prev_prev_week_end_local
    month_start := month_start_local
    last_month_start := last_month_start_local
    last_month_end := last_month_end_local
    prev_prev_month_start := prev_prev_month_start_local
    prev_prev_month_end := prev_prev_month_end_local }

/-- The `raw` dictionary of `_aggregate_raw_field` (lines 665-675). -/
structure RawStats where
  today : Int
  yesterday : Int
  day_before_yesterday : Int
  this_week : Int
  last_week : Int
  week_before_last : Int
  this_month : Int
  last_month : Int
  month_before_last : Int
deriving DecidableEq, Repr

def zeroRawStats : RawStats := ⟨0, 0, 0, 0, 0, 0, 0, 0, 0⟩

/-- The nine buckets of `_aggregate_raw_field`. -/
inductive Bucket
  | bToday
  | bYesterday
  | bDayBefore
  | bThisWeek
  | bLastWeek
  | bWeekBeforeLast
  | bThisMonth
  | bLastMonth
  | bMonthBeforeLast
deriving DecidableEq, Repr

/-- The if/elif chain of `_aggregate_raw_field` (lines 679-696): which branch
fires for a record, i.e. the first condition its date satisfies (`none` when
no condition holds). -/
def bucketOf (today : PyDate) (b : PeriodBounds) (r : MaintRecord) : Option Bucket :=
  if r.date = today then some .bToday
  else if r.date = b.yesterday then some .bYesterday
  else if r.date = b.day_before_yesterday then some .bDayBefore
  else if dateLe b.week_start r.date && dateLe r.date today then some .bThisWeek
  else if dateLe b.last_week_start r.date && dateLe r.date b.last_week_end then some .bLastWeek
  else if dateLe b.prev_prev_week_start r.date && dateLe r.date b.prev_prev_week_end then
    some .bWeekBeforeLast
  else if dateLe b.month_start r.date && dateLe r.date today then some .bThisMonth
  else if dateLe b.last_month_start r.date && dateLe r.date b.last_month_end then
    some .bLastMonth
  else if dateLe b.prev_prev_month_start r.date && dateLe r.date b.prev_prev_month_end then
    some .bMonthBeforeLast
  else none

/-- The loop body of `_aggregate_raw_field` (lines 676-696): the branch that
fires assigns the record's value to a day bucket (`raw[k] = value`) or folds
it with `max` into a week/month bucket (`raw[k] = max(raw[k], value)`). -/
def aggregateStep (today : PyDate) (b : PeriodBounds) (ext : MaintRecord → Int)
    (raw : RawStats) (r : MaintRecord) : RawStats :=
  match bucketOf today b r with
  | some .bToday => { raw with today := ext r }
  | some .bYesterday => { raw with yesterday := ext r }
  | some .bDayBefore => { raw with day_before_yesterday := ext r }
  | some .bThisWeek => { raw with this_week := max raw.this_week (ext r) }
  | some .bLastWeek => { raw with last_week := max raw.last_week (ext r) }
  | some .bWeekBeforeLast => { raw with week_before_last := max raw.week_before_last (ext r) }
  | some .bThisMonth => { raw with this_month := max raw.this_month (ext r) }
  | some .bLastMonth => { raw with last_month := max raw.last_month (ext r) }
  | some .bMonthBeforeLast => { raw with month_before_last := max raw.month_before_last (ext r) }
  | none => raw

/-- `_aggregate_raw_field` (lines 660-697): fold the loop body over the
history records, starting from the all-zero `raw` dictionary.
`ext` is the `extract_value` callback. -/
def aggregate_raw_field (h : List MaintRecord) (today : PyDate) (b : PeriodBounds)
    (ext : MaintRecord → Int) : RawStats :=
  h.foldl (aggregateStep today b ext) zeroRawStats

/-- The dictionary returned by `_compute_delta_stats` (lines 699-708). -/
structure DeltaStats where
  delta_ok_day : Int
  delta_ok_prev_day : Int
  delta_ok_week : Int
  delta_ok_prev_week : Int
  delta_ok_month : Int
  delta_ok_prev_month : Int
deriving DecidableEq, Repr

/-- `_compute_delta_stats` (lines 699-708). -/
def compute_delta_stats (raw : RawStats) : DeltaStats :=
  { delta_ok_day := raw.today - raw.yesterday
    delta_ok_prev_day := raw.yesterday - raw.day_before_yesterday
    delta_ok_week := raw.this_week - raw.last_week
    delta_ok_prev_week := raw.last_week - raw.week_before_last
    delta_ok_month := raw.this_month - raw.last_month
    delta_ok_prev_month := raw.last_month - raw.month_before_last }

/-! ## Python dict model for `get_statistics`

`get_statistics` (lines 710-744) builds its result by merging four dicts with
`{**a, **b, ...}` and then assigning `merged["today"]`.  To capture the key
set and the key collisions faithfully, a dict is modelled as an association
list in insertion order with unique keys; `dictUpdate a b` is `{**a, **b}`
(keys of `a` in order with values overridden by `b`, then the new keys of
`b` in order), `dictSet` is item assignment, `dictGetD` is lookup.
-/

def dictUpdate (a b : List (String × Int)) : List (String × Int) :=
  (a.map fun p =>
    match b.find? (fun q => q.1 == p.1) with
    | some q => (p.1, q.2)
    | none => p) ++
    b.filter (fun q => (a.find? (fun p => p.1 == q.1)).isNone)

def dictSet (d : List (String × Int)) (k : String) (v : Int) : List (String × Int) :=
  if (d.find? (fun p => p.1 == k)).isSome then
    d.map (fun p => if p.1 == k then (p.1, v) else p)
  else d ++ [(k, v)]

def dictGetD (d : List (String × Int)) (k : String) (dflt : Int) : Int :=
  match d.find? (fun p => p.1 == k) with
  | some p => p.2
  | none => dflt

/-- The `raw` dict of `_aggregate_raw_field` in its Python insertion order
(lines 665-675). -/
def rawToDict (r : RawStats) : List (String × Int) :=
  [("today", r.today), ("yesterday", r.yesterday),
   ("day_before_yesterday", r.day_before_yesterday),
   ("this_week", r.this_week), ("last_week", r.last_week),
   ("week_before_last", r.week_before_last),
   ("this_month", r.this_month), ("last_month", r.last_month),
   ("month_before_last", r.month_before_last)]

/-- The dict of `_compute_delta_stats` in its Python insertion order
(lines 701-708). -/
def deltaToDict (d : DeltaStats) : List (String × Int) :=
  [("delta_ok_day", d.delta_ok_day), ("delta_ok_prev_day", d.delta_ok_prev_day),
   ("delta_ok_week", d.delta_ok_week), ("delta_ok_prev_week", d.delta_ok_prev_week),
   ("delta_ok_month", d.delta_ok_month), ("delta_ok_prev_month", d.delta_ok_prev_month)]

/-- `StatisticsManager.get_statistics` (lines 710-744).  Empty history: the
fixed six-key zero dict.  Otherwise: aggregate the `ok` and `urgent` series
(the records written by this program always carry the `ok` key, so
`rec.get('ok', rec.get('serviced', 0))` is the `ok` field), compute both
delta dicts, merge `{**ok_raw, **ok_delta, **{urgent_ prefixed raw},
**urgent_delta}` and finally set `merged["today"] = merged["delta_ok_day"]`. -/
def get_statistics (h : List MaintRecord) (today : PyDate) : List (String × Int) :=
  if h.isEmpty then
    [("today", 0), ("yesterday", 0), ("this_week", 0), ("last_week", 0),
     ("this_month", 0), ("last_month", 0)]
  else
    let bounds := computePeriodBoundaries today
    let okRaw := aggregate_raw_field h today bounds (fun r => r.ok)
    let urgentRaw := aggregate_raw_field h today bounds (fun r => r.urgent)
    let okDelta := compute_delta_stats okRaw
    let urgentDelta := compute_delta_stats urgentRaw
    let merged :=
      dictUpdate
        (dictUpdate (dictUpdate (rawToDict okRaw) (deltaToDict okDelta))
          ((rawToDict urgentRaw).map (fun p => ("urgent_" ++ p.1, p.2))))
        (deltaToDict urgentDelta)
    dictSet merged "today" (dictGetD merged "delta_ok_day" 0)

/-! ## Formula recalculation and spreadsheet reading (ExcelHandler)

`recalculate_formulas` (lines 145-184) fails and returns `(False, None)`
when: xlwings is unavailable; the Excel file does not exist; any exception
is raised in the xlwings open/calculate/save block; or `_verify_file_write`
rejects the tmp file.  Otherwise it returns `(True, tmp_file_path)`.  The
environment records those four conditions as flags.
-/

structure RecalcEnv where
  xlwingsAvailable : Bool
  fileExists : Bool
  excelOpRaises : Bool
  tmpVerifyOk : Bool
deriving DecidableEq, Repr

inductive UsedFile
  | tmpFile
  | originalFile
deriving DecidableEq, Repr

def recalculate_formulas (env : RecalcEnv) : Bool × Option UsedFile :=
  if !env.xlwingsAvailable then (false, none)
  else if !env.fileExists then (false, none)
  else if env.excelOpRaises then (false, none)
  else if !env.tmpVerifyOk then (false, none)
  else (true, some .tmpFile)

/-- A parsed spreadsheet row after `pd.read_excel(header=3)` and the rename
to the eleven `COLUMN_NAMES`: a cell is `none` when it is NaN.  The
`"Статус"` column is the last of the eleven. -/
structure Row where
  cells : List (Option String)
deriving DecidableEq, Repr

def rowStatus (r : Row) : Option String := r.cells.getD 10 none

/-- A row survives `df.dropna(how='all')` when some cell is non-NaN. -/
def rowNonEmpty (r : Row) : Bool := r.cells.any (fun c => c.isSome)

/-- One configured sheet as `read_data` sees it: its name and the rows parsed
from it, `none` when reading that sheet raised (the per-sheet `except` at
lines 329-330 then skips the sheet). -/
abbrev SheetRead := String × Option (List Row)

/-- `df[df['Статус'] == status]`: pandas string equality is exact, and a NaN
cell never equals a string. -/
def statusFilter (status : String) (rows : List Row) : List Row :=
  rows.filter (fun r => rowStatus r == some status)

/-- The tuple returned by `ExcelHandler.read_data` (line 332), plus which
file was read (`excel_file_to_use` of lines 289-295).  `status_counts` is
the three-key dict over `MAINTENANCE_STATUSES`, kept as three named
counters. -/
structure ReadResult where
  urgent_items : List (String × List Row)
  warning_items : List (String × List Row)
  total_records : Nat
  countUrgent : Nat
  countWarning : Nat
  countOk : Nat
  recalc_success : Bool
  fileUsed : UsedFile
deriving DecidableEq, Repr

/-- The per-sheet loop body of `read_data` (lines 302-330): drop all-NaN
rows, add their number to `total_records`, add the per-status match counts,
and append the non-empty urgent and warning slices (tagged with the sheet
name, the `'Тип'` column) to the respective lists. -/
def readSheetStep (acc : ReadResult) (sheet : SheetRead) : ReadResult :=
  match sheet.2 with
  | none => acc
  | some rawRows =>
    let df := rawRows.filter rowNonEmpty
    let urgentDf := statusFilter STATUS_URGENT df
    let warningDf := statusFilter STATUS_WARNING df
    { acc with
      total_records := acc.total_records + df.length
      countUrgent := acc.countUrgent + urgentDf.length
      countWarning := acc.countWarning + warningDf.length
      countOk := acc.countOk + (statusFilter STATUS_OK df).length
      urgent_items :=
        acc.urgent_items ++ (if urgentDf.isEmpty then [] else [(sheet.1, urgentDf)])
      warning_items :=
        acc.warning_items ++ (if warningDf.isEmpty then [] else [(sheet.1, warningDf)]) }

/-- `ExcelHandler.read_data` (lines 287-332): recalculate formulas, fall back
to the original file when that failed (`excel_file_to_use is None`), then
loop over the configured sheets accumulating the classification. -/
def read_data (env : RecalcEnv) (sheets : List SheetRead) : ReadResult :=
  sheets.foldl readSheetStep
    { urgent_items := []
      warning_items := []
      total_records := 0
      countUrgent := 0
      countWarning := 0
      countOk := 0
      recalc_success := (recalculate_formulas env).1
      fileUsed := ((recalculate_formulas env).2).getD .originalFile }

/-! ## HTML body (ReportGenerator.create_body)

The body is a concatenation of blocks (lines 879-1046).  Each constructor
stands for one `html_parts.append(...)` of the source; `warningTableOpen` is
the red block whose heading is the string
`"⚠️ ВНИМАНИЕ! ТАБЛИЦА ОТКРЫТА! ⚠️"` (lines 885-902), appended exactly when
`recalc_success` is false.
-/

inductive EmailBlock
  | warningTableOpen
  | statusSummary (cUrgent cWarning cOk total : Nat)
  | chartImage
  | urgentSection (count : Nat)
  | warningSection (count : Nat)
  | footer
deriving DecidableEq, Repr

/-- `ReportGenerator.create_body` (lines 870-1047) as its block sequence:
the warning block when `recalc_success` is false, the status summary, the
chart when one was produced, the urgent and warning tables when their lists
are non-empty, and the footer. -/
def create_body (urgent warning : List (String × List Row))
    (total cUrgent cWarning cOk : Nat) (recalc_success chartOk : Bool) :
    List EmailBlock :=
  (if recalc_success then [] else [.warningTableOpen]) ++
    [.statusSummary cUrgent cWarning cOk total] ++
    (if chartOk then [.chartImage] else []) ++
    (if !urgent.isEmpty then
      [.urgentSection ((urgent.map (fun p => p.2.length)).sum)] else []) ++
    (if !warning.isEmpty then
      [.warningSection ((warning.map (fun p => p.2.length)).sum)] else []) ++
    [.footer]

/-! ## Marking equipment serviced (ExcelHandler.mark_as_serviced)

The openpyxl workbook is modelled by its two columns that the function
touches, per sheet: `colA` holds the values of column A ("№") for worksheet
rows 5..504 (index `i` is row `5 + i`), `colI` the values of column I
("Дата последнего ТО") for the same rows.  A cell value is `none` for an
empty cell; `cInt n` stands for any value `v` with `int(float(v)) = n`
(ints, integral floats, numeric strings), `cDate d` for a datetime, and
`cOther` for any value on which `int(float(v))` raises and which is not a
datetime (the search loop skips such cells via its
`except (ValueError, TypeError): continue`).
-/

inductive CellV
  | cInt (n : Int)
  | cDate (d : PyDate)
  | cOther
deriving DecidableEq, Repr

structure WSheet where
  colA : List (Option CellV)
  colI : List (Option CellV)
deriving DecidableEq, Repr

/-- The workbook file as `mark_as_serviced` sees it: whether the Excel file
exists, whether `is_file_locked` reports it locked, and the sheets by name. -/
structure ExcelEnv where
  fileExists : Bool
  fileLocked : Bool
  sheets : List (String × WSheet)
deriving DecidableEq, Repr

/-- The body of the search loop (lines 423-433): a cell matches when it is
not None and converts to exactly the target integer. -/
def cellMatches (c : Option CellV) (target : Int) : Bool :=
  match c with
  | some (.cInt n) => n == target
  | _ => false

/-- The search loop `for row_idx in range(start_row, start_row + max_rows)`
(lines 423-433) over worksheet rows 5..504, i.e. indices 0..499 of `colA`,
stopping at the first match; openpyxl yields None for cells beyond the
stored area, hence `getD i none`. -/
def findRowIdx (colA : List (Option CellV)) (target : Int) : Option Nat :=
  (List.range 500).find? (fun i => cellMatches (colA.getD i none) target)

/-- Writing a cell through openpyxl: cells spring into existence when the
written row lies beyond the stored area. -/
def setCell (l : List (Option CellV)) (i : Nat) (v : Option CellV) : List (Option CellV) :=
  if i < l.length then l.set i v else l ++ List.replicate (i - l.length) none ++ [v]

/-- Replace the (first, and in an xlsx-workbook only) sheet with the given
name. -/
def updateSheet (sheets : List (String × WSheet)) (name : String) (f : WSheet → WSheet) :
    List (String × WSheet) :=
  match sheets with
  | [] => []
  | (n, s) :: t => if n = name then (n, f s) :: t else (n, s) :: updateSheet t name f

/-- `ExcelHandler.mark_as_serviced` (lines 373-457).  `rowNumInt` is the
result of `int(row_number)` on the string argument, `none` when that parse
raises `ValueError` (line 418-421).  The backup step (lines 393-395) never
affects the outcome: `create_backup` catches its own exceptions and its
result is ignored.  On success the date cell (column I) of the found row is
set to the current date and the workbook saved; on every failure the
workbook is returned unchanged. -/
def mark_as_serviced (env : ExcelEnv) (sheet_name : String) (rowNumInt : Option Int)
    (today : PyDate) : Bool × ExcelEnv :=
  if !env.fileExists then (false, env)
  else if env.fileLocked then (false, env)
  else
    match env.sheets.find? (fun p => p.1 == sheet_name) with
    | none => (false, env)
    | some sh =>
      match rowNumInt with
      | none => (false, env)
      | some target =>
        match findRowIdx sh.2.colA target with
        | none => (false, env)
        | some i =>
          (true,
            { env with
              sheets := updateSheet env.sheets sheet_name
                (fun s => { s with colI := setCell s.colI i (some (.cDate today)) }) })

/-! ## The orchestration (MaintenanceAlertApp.run)

`run` (lines 1135-1188) as the sequence of its effects: read the
spreadsheet (which classifies), update the statistics, and — unless nothing
was classified urgent or warning — render the body, generate the data file
when there are urgent items, and send the email to `Config.RECIPIENTS`.
-/

inductive RunEvent
  | readSpreadsheet
  | updateStats
  | renderBody
  | generateDataFile
  | sendEmail (recipients : List String)
deriving DecidableEq, Repr

def totalAlarm (r : ReadResult) : Nat := (r.urgent_items.map (fun p => p.2.length)).sum

def totalWarning (r : ReadResult) : Nat := (r.warning_items.map (fun p => p.2.length)).sum

/-- `MaintenanceAlertApp.run` (lines 1135-1188): the event trace it performs
and the resulting maintenance history. -/
def run (env : RecalcEnv) (sheets : List SheetRead) (h : List MaintRecord)
    (today : PyDate) (ts : String) (chartOk : Bool) :
    List RunEvent × List MaintRecord :=
  let r := read_data env sheets
  let h2 := update_statistics h today (r.total_records : Int) (r.countOk : Int)
    (r.countUrgent : Int) (r.countWarning : Int) ts
  if totalAlarm r = 0 ∧ totalWarning r = 0 then
    ([.readSpreadsheet, .updateStats], h2)
  else
    let _body := create_body r.urgent_items r.warning_items r.total_records
      r.countUrgent r.countWarning r.countOk r.recalc_success chartOk
    ([.readSpreadsheet, .updateStats, .renderBody] ++
      (if r.urgent_items.isEmpty then [] else [.generateDataFile]) ++
      [.sendEmail RECIPIENTS], h2)

/-! ## Derived definitions used to state the theorems -/

/-! ## Concrete dates used by counterexamples and witnesses.

2026-10-07 is a Wednesday, so `computePeriodBoundaries` puts the start of
its week at Monday 2026-10-05.
-/

def dOct7 : PyDate := ⟨2026, 10, 7⟩

def dOct6 : PyDate := ⟨2026, 10, 6⟩

def dOct5 : PyDate := ⟨2026, 10, 5⟩

/-- Last-write-wins value of a day bucket (`raw[k] = value` inside the
loop): the value of the last record of the list, else the starting value. -/
def lastValIn (ext : MaintRecord → Int) (a : Int) (l : List MaintRecord) : Int :=
  l.foldl (fun _ r => ext r) a

/-- Max-fold value of a week/month bucket (`raw[k] = max(raw[k], value)`
inside the loop). -/
def maxValIn (ext : MaintRecord → Int) (a : Int) (l : List MaintRecord) : Int :=
  l.foldl (fun x r => max x (ext r)) a

/-- The this-week bucket as the claim words it: the maximum of the series
value over all records whose dates fall in the this-week period
`week_start <= record_date <= today`, regardless of the other branches. -/
def claimedThisWeekBucket (ext : MaintRecord → Int) (today : PyDate) (b : PeriodBounds)
    (h : List MaintRecord) : Int :=
  maxValIn ext 0 (h.filter (fun r => dateLe b.week_start r.date && dateLe r.date today))

/-- How many of the nine buckets differ between two `raw` states. -/
def changedBuckets (a c : RawStats) : Nat :=
  (if a.today = c.today then 0 else 1) +
    (if a.yesterday = c.yesterday then 0 else 1) +
    (if a.day_before_yesterday = c.day_before_yesterday then 0 else 1) +
    (if a.this_week = c.this_week then 0 else 1) +
    (if a.last_week = c.last_week then 0 else 1) +
    (if a.week_before_last = c.week_before_last then 0 else 1) +
    (if a.this_month = c.this_month then 0 else 1) +
    (if a.last_month = c.last_month then 0 else 1) +
    (if a.month_before_last = c.month_before_last then 0 else 1)

/-- The rows `read_data` actually reads from one sheet: none when the sheet
raised, otherwise the parsed rows with the all-NaN ones dropped. -/
def sheetRowsRead (s : SheetRead) : List Row :=
  match s.2 with
  | none => []
  | some src => src.filter rowNonEmpty

/-- The entry a sheet contributes to the urgent (or warning) list: the
status-filtered slice, tagged with the sheet name, when non-empty. -/
def statusEntry (status : String) (s : SheetRead) : Option (String × List Row) :=
  if (statusFilter status (sheetRowsRead s)).isEmpty then none
  else some (s.1, statusFilter status (sheetRowsRead s))

/-! ## Helper lemmas about the history update -/

theorem mem_setOrAppend {rec a : MaintRecord} :
    ∀ {h : List MaintRecord}, a ∈ setOrAppend rec h → a = rec ∨ a ∈ h := by
  intro h
  induction h with
  | nil => intro ha; simpa [setOrAppend] using ha
  | cons x t ih =>
    intro ha
    by_cases hx : x.date = rec.date
    · simp only [setOrAppend, if_pos hx, List.mem_cons] at ha
      rcases ha with ha | ha
      · exact Or.inl ha
      · exact Or.inr (List.mem_cons_of_mem _ ha)
    · simp only [setOrAppend, if_neg hx, List.mem_cons] at ha
      rcases ha with ha | ha
      · exact Or.inr (ha ▸ List.mem_cons_self _ _)
      · rcases ih ha with ha | ha
        · exact Or.inl ha
        · exact Or.inr (List.mem_cons_of_mem _ ha)

theorem setOrAppend_of_forall_ne {rec : MaintRecord} :
    ∀ {h : List MaintRecord}, (∀ r ∈ h, r.date ≠ rec.date) →
      setOrAppend rec h = h ++ [rec] := by
  intro h
  induction h with
  | nil => intro _; rfl
  | cons x t ih =>
    intro hall
    have hx : x.date ≠ rec.date := hall x (List.mem_cons_self _ _)
    simp only [setOrAppend, if_neg hx, List.cons_append, List.cons.injEq, true_and]
    exact ih (fun r hr => hall r (List.mem_cons_of_mem _ hr))

theorem length_setOrAppend_of_mem {rec : MaintRecord} :
    ∀ {h : List MaintRecord}, (∃ r ∈ h, r.date = rec.date) →
      (setOrAppend rec h).length = h.length := by
  intro h
  induction h with
  | nil => rintro ⟨r, hr, _⟩; exact absurd hr (List.not_mem_nil r)
  | cons x t ih =>
    rintro ⟨r, hr, hrd⟩
    by_cases hx : x.date = rec.date
    · simp [setOrAppend, if_pos hx]
    · simp only [setOrAppend, if_neg hx, List.length_cons]
      rcases List.mem_cons.mp hr with rfl | hrt
      · exact absurd hrd hx
      · rw [ih ⟨r, hrt, hrd⟩]

theorem filter_other_setOrAppend (rec : MaintRecord) :
    ∀ (h : List MaintRecord),
      (setOrAppend rec h).filter (fun r => !(r.date == rec.date)) =
        h.filter (fun r => !(r.date == rec.date)) := by
  intro h
  induction h with
  | nil => simp [setOrAppend]
  | cons x t ih =>
    by_cases hx : x.date = rec.date
    · simp [setOrAppend, if_pos hx, List.filter_cons, hx]
    · simp only [setOrAppend, if_neg hx, List.filter_cons]
      have hb : (!(x.date == rec.date)) = true := by simp [hx]
      simp only [hb, if_pos]
      rw [ih]

theorem truncateHistory_length_le (h : List MaintRecord) :
    (truncateHistory h).length ≤ 120 := by
  unfold truncateHistory
  split
  · rename_i hgt
    rw [List.length_drop]
    omega
  · omega

theorem truncateHistory_sublist (h : List MaintRecord) :
    (truncateHistory h).Sublist h := by
  unfold truncateHistory
  split
  · exact List.drop_sublist _ _
  · exact List.Sublist.refl _

theorem countP_setOrAppend_le_one (rec : MaintRecord) (d : PyDate) (hrec : rec.date = d) :
    ∀ {h : List MaintRecord}, h.countP (fun r => r.date == d) ≤ 1 →
      (setOrAppend rec h).countP (fun r => r.date == d) ≤ 1 := by
  intro h
  induction h with
  | nil => intro _; simp [setOrAppend, List.countP_cons, hrec]
  | cons x t ih =>
    intro hle
    by_cases hx : x.date = rec.date
    · have hxd : (x.date == d) = true := by simp [hx, hrec]
      simp only [List.countP_cons, hxd, if_pos] at hle
      have ht : t.countP (fun r => r.date == d) = 0 := by omega
      have hxd2 : x.date = d := hx.trans hrec
      simp [setOrAppend, if_pos hx, List.countP_cons, hrec, ht, hxd2]
    · have hxd : (x.date == d) = false := by
        simp only [beq_eq_false_iff_ne, ne_eq]
        intro hcon
        exact hx (hcon.trans hrec.symm)
      simp only [List.countP_cons, hxd] at hle
      simp only [setOrAppend, if_neg hx, List.countP_cons, hxd]
      simpa using ih (by omega)

theorem filter_setOrAppend_eq (rec : MaintRecord) (d : PyDate) (hrec : rec.date = d) :
    ∀ {h : List MaintRecord}, h.countP (fun r => r.date == d) ≤ 1 →
      (setOrAppend rec h).filter (fun r => r.date == d) = [rec] := by
  intro h
  induction h with
  | nil => intro _; simp [setOrAppend, List.filter_cons, hrec]
  | cons x t ih =>
    intro hle
    by_cases hx : x.date = rec.date
    · have hxd : (x.date == d) = true := by simp [hx, hrec]
      simp only [List.countP_cons, hxd, if_pos] at hle
      have ht : t.countP (fun r => r.date == d) = 0 := by omega
      have htf : t.filter (fun r => r.date == d) = [] := by
        rw [List.countP_eq_length_filter] at ht
        exact List.length_eq_zero.mp ht
      have hxd2 : x.date = d := hx.trans hrec
      simp [setOrAppend, if_pos hx, List.filter_cons, hrec, htf, hxd2]
    · have hxd : (x.date == d) = false := by
        simp only [beq_eq_false_iff_ne, ne_eq]
        intro hcon
        exact hx (hcon.trans hrec.symm)
      simp only [List.countP_cons, hxd] at hle
      simp only [setOrAppend, if_neg hx, List.filter_cons, hxd]
      exact ih (by simpa using hle)

theorem filter_update_eq (rec : MaintRecord) (d : PyDate) (hrec : rec.date = d)
    {h : List MaintRecord} (hlen : h.length ≤ 120)
    (hcnt : h.countP (fun r => r.date == d) ≤ 1) :
    (truncateHistory (setOrAppend rec h)).filter (fun r => r.date == d) = [rec] := by
  have h01 : h.countP (fun r => r.date == d) = 0 ∨ h.countP (fun r => r.date == d) = 1 := by
    omega
  rcases h01 with hc | hc
  · have hnone : ∀ r ∈ h, r.date ≠ rec.date := by
      intro r hr hcon
      have hpr : ¬((fun r => r.date == d) r = true) := List.countP_eq_zero.mp hc r hr
      exact hpr (by simp [hcon, hrec])
    have hfh : ∀ {l : List MaintRecord}, l.Sublist h →
        l.filter (fun r => r.date == d) = [] := by
      intro l hl
      refine List.filter_eq_nil.mpr ?_
      intro a ha
      have hpr : ¬((fun r => r.date == d) a = true) :=
        List.countP_eq_zero.mp hc a (hl.subset ha)
      simpa using hpr
    rw [setOrAppend_of_forall_ne hnone]
    unfold truncateHistory
    split
    · rename_i hgt
      rw [List.length_append] at hgt
      have hle2 : (h.length + 1) - 100 ≤ h.length := by simp at hgt; omega
      rw [List.length_append, List.drop_append_of_le_length (by simpa using hle2),
        List.filter_append, hfh (List.drop_sublist _ _)]
      simp [hrec]
    · rw [List.filter_append, hfh (List.Sublist.refl h)]
      simp [hrec]
  · have hex : ∃ r ∈ h, r.date = rec.date := by
      have hpos : 0 < h.countP (fun r => r.date == d) := by omega
      rcases List.countP_pos.mp hpos with ⟨r, hr, hpr⟩
      exact ⟨r, hr, by simpa [hrec] using hpr⟩
    have hlen2 : (setOrAppend rec h).length = h.length := length_setOrAppend_of_mem hex
    unfold truncateHistory
    rw [if_neg (by omega)]
    exact filter_setOrAppend_eq rec d hrec hcnt

theorem pairwise_setOrAppend {rec : MaintRecord} :
    ∀ {h : List MaintRecord}, h.Pairwise (fun a b => a.date ≠ b.date) →
      (setOrAppend rec h).Pairwise (fun a b => a.date ≠ b.date) := by
  intro h
  induction h with
  | nil => intro _; simp [setOrAppend]
  | cons x t ih =>
    intro hp
    rcases List.pairwise_cons.mp hp with ⟨hx, ht⟩
    by_cases hxr : x.date = rec.date
    · simp only [setOrAppend, if_pos hxr]
      refine List.pairwise_cons.mpr ⟨?_, ht⟩
      intro b hb
      exact hxr ▸ hx b hb
    · simp only [setOrAppend, if_neg hxr]
      refine List.pairwise_cons.mpr ⟨?_, ih ht⟩
      intro b hb
      rcases mem_setOrAppend hb with rfl | hb
      · exact hxr
      · exact hx b hb

/-! ## Claim C4 -/

/-- Claim C4, counterexample.  The claim states that `update_statistics`
never modifies or removes existing records and only appends.  When the
starting history already holds a record for the current date, the code
overwrites that record in place: the result is not the starting history
with a record appended, and the pre-existing record is gone. -/
theorem update_statistics_append_only_counterexample :
    update_statistics [mkRecord dOct7 10 5 2 3 "t1"] dOct7 10 6 1 3 "t2" ≠
        [mkRecord dOct7 10 5 2 3 "t1"] ++ [mkRecord dOct7 10 6 1 3 "t2"] ∧
      mkRecord dOct7 10 5 2 3 "t1" ∉
        update_statistics [mkRecord dOct7 10 5 2 3 "t1"] dOct7 10 6 1 3 "t2" := by
  decide

/-- Claim C4, amended: `update_statistics` appends the new record exactly
when the starting history has no record for the current date; otherwise it
replaces that record in place.  Records for other dates are kept unchanged
and in order, except that when the history after the replace/append holds
more than 120 records only the most recent 100 survive; no record other
than the new one is ever introduced. -/
theorem update_statistics_replace_append_truncate (h : List MaintRecord)
    (today : PyDate) (total ok urgent warning : Int) (ts : String) :
    ((∀ r ∈ h, r.date ≠ today) →
      setOrAppend (mkRecord today total ok urgent warning ts) h =
        h ++ [mkRecord today total ok urgent warning ts]) ∧
    ((setOrAppend (mkRecord today total ok urgent warning ts) h).length ≤ 120 →
      update_statistics h today total ok urgent warning ts =
        setOrAppend (mkRecord today total ok urgent warning ts) h) ∧
    ((setOrAppend (mkRecord today total ok urgent warning ts) h).length > 120 →
      update_statistics h today total ok urgent warning ts =
        (setOrAppend (mkRecord today total ok urgent warning ts) h).drop
          ((setOrAppend (mkRecord today total ok urgent warning ts) h).length - 100)) ∧
    ((setOrAppend (mkRecord today total ok urgent warning ts) h).filter
        (fun r => !(r.date == today)) = h.filter (fun r => !(r.date == today))) ∧
    (∀ r ∈ update_statistics h today total ok urgent warning ts,
      r = mkRecord today total ok urgent warning ts ∨ r ∈ h) := by
  refine ⟨?_, ?_, ?_, ?_, ?_⟩
  · intro hall
    exact setOrAppend_of_forall_ne hall
  · intro hle
    unfold update_statistics truncateHistory
    rw [if_neg (by omega)]
  · intro hgt
    unfold update_statistics truncateHistory
    rw [if_pos hgt]
  · exact filter_other_setOrAppend (mkRecord today total ok urgent warning ts) h
  · intro r hr
    exact mem_setOrAppend ((truncateHistory_sublist _).subset hr)

/-! ## Claim C5 -/

/-- Claim C5, counterexample.  The claim quantifies over any starting
history; a history that (through edits outside the program) already holds
two records for the date leaves a second, stale record in place, so the
resulting history does not hold exactly one record for that date. -/
theorem update_statistics_last_write_counterexample :
    ((update_statistics
          (update_statistics
            [mkRecord dOct7 10 1 0 0 "a", mkRecord dOct7 10 9 0 0 "b"]
            dOct7 11 2 4 5 "t1")
          dOct7 12 3 6 7 "t2").filter (fun r => r.date == dOct7)).length ≠ 1 := by
  decide

/-- Claim C5, amended with the precondition that the starting history holds
at most one record for the date (which the program itself maintains): after
two `update_statistics` calls on the same date, the history holds exactly
one record for that date and all its fields are the values of the later
call. -/
theorem update_statistics_last_write_wins (h : List MaintRecord) (today : PyDate)
    (t1 o1 u1 w1 : Int) (ts1 : String) (t2 o2 u2 w2 : Int) (ts2 : String)
    (hone : h.countP (fun r => r.date == today) ≤ 1) :
    (update_statistics (update_statistics h today t1 o1 u1 w1 ts1)
        today t2 o2 u2 w2 ts2).filter (fun r => r.date == today) =
      [mkRecord today t2 o2 u2 w2 ts2] := by
  have h1len : (update_statistics h today t1 o1 u1 w1 ts1).length ≤ 120 :=
    truncateHistory_length_le _
  have h1cnt :
      (update_statistics h today t1 o1 u1 w1 ts1).countP (fun r => r.date == today) ≤ 1 := by
    refine le_trans (List.Sublist.countP_le _ (truncateHistory_sublist _)) ?_
    exact countP_setOrAppend_le_one (mkRecord today t1 o1 u1 w1 ts1) today rfl hone
  exact filter_update_eq (mkRecord today t2 o2 u2 w2 ts2) today rfl h1len h1cnt

/-- Claim C5, witness: a concrete one-record history for another date. -/
theorem update_statistics_last_write_wins_witness :
    (update_statistics (update_statistics [mkRecord dOct6 10 1 0 0 "a"]
        dOct7 11 2 4 5 "t1") dOct7 12 3 6 7 "t2").filter (fun r => r.date == dOct7) =
      [mkRecord dOct7 12 3 6 7 "t2"] :=
  update_statistics_last_write_wins [mkRecord dOct6 10 1 0 0 "a"] dOct7
    11 2 4 5 "t1" 12 3 6 7 "t2" (by decide)

/-! ## Claim C8 -/

/-- Claim C8: the history stays bounded — when the replace/append step made
it longer than 120 records it is truncated to exactly the most recent 100,
and the post-state length never exceeds 120 — and at-most-one-record-per-
date (stated as pairwise distinct dates) is preserved. -/
theorem update_statistics_bounded_and_unique (h : List MaintRecord)
    (today : PyDate) (total ok urgent warning : Int) (ts : String)
    (hp : h.Pairwise (fun a b => a.date ≠ b.date)) :
    (update_statistics h today total ok urgent warning ts).length ≤ 120 ∧
    ((setOrAppend (mkRecord today total ok urgent warning ts) h).length > 120 →
      update_statistics h today total ok urgent warning ts =
        (setOrAppend (mkRecord today total ok urgent warning ts) h).drop
          ((setOrAppend (mkRecord today total ok urgent warning ts) h).length - 100) ∧
      (update_statistics h today total ok urgent warning ts).length = 100) ∧
    (update_statistics h today total ok urgent warning ts).Pairwise
      (fun a b => a.date ≠ b.date) := by
  refine ⟨truncateHistory_length_le _, ?_, ?_⟩
  · intro hgt
    constructor
    · unfold update_statistics truncateHistory
      rw [if_pos hgt]
    · unfold update_statistics truncateHistory
      rw [if_pos hgt, List.length_drop]
      omega
  · exact List.Pairwise.sublist (truncateHistory_sublist _) (pairwise_setOrAppend hp)

/-- Claim C8, witness: a concrete two-record history with distinct dates. -/
theorem update_statistics_bounded_and_unique_witness :
    (update_statistics [mkRecord dOct6 10 1 0 0 "a", mkRecord dOct5 9 2 1 1 "b"]
        dOct7 11 2 4 5 "t").Pairwise (fun a b => a.date ≠ b.date) :=
  (update_statistics_bounded_and_unique
    [mkRecord dOct6 10 1 0 0 "a", mkRecord dOct5 9 2 1 1 "b"]
    dOct7 11 2 4 5 "t" (by decide)).2.2

/-! ## Closed form of the bucket aggregation (claims C3, C9) -/

theorem aggregate_go (today : PyDate) (b : PeriodBounds) (ext : MaintRecord → Int) :
    ∀ (h : List MaintRecord) (acc : RawStats),
      h.foldl (aggregateStep today b ext) acc =
        { today := lastValIn ext acc.today
            (h.filter (fun r => bucketOf today b r == some .bToday))
          yesterday := lastValIn ext acc.yesterday
            (h.filter (fun r => bucketOf today b r == some .bYesterday))
          day_before_yesterday := lastValIn ext acc.day_before_yesterday
            (h.filter (fun r => bucketOf today b r == some .bDayBefore))
          this_week := maxValIn ext acc.this_week
            (h.filter (fun r => bucketOf today b r == some .bThisWeek))
          last_week := maxValIn ext acc.last_week
            (h.filter (fun r => bucketOf today b r == some .bLastWeek))
          week_before_last := maxValIn ext acc.week_before_last
            (h.filter (fun r => bucketOf today b r == some .bWeekBeforeLast))
          this_month := maxValIn ext acc.this_month
            (h.filter (fun r => bucketOf today b r == some .bThisMonth))
          last_month := maxValIn ext acc.last_month
            (h.filter (fun r => bucketOf today b r == some .bLastMonth))
          month_before_last := maxValIn ext acc.month_before_last
            (h.filter (fun r => bucketOf today b r == some .bMonthBeforeLast)) } := by
  intro h
  induction h with
  | nil => intro acc; rfl
  | cons r t ih =>
    intro acc
    rw [List.foldl_cons, ih]
    rcases hb : bucketOf today b r with _ | bkt
    · simp [aggregateStep, hb, List.filter_cons]
    · cases bkt <;>
        simp [aggregateStep, hb, List.filter_cons, lastValIn, maxValIn]

/-! ## Claim C3 -/

/-- Claim C3, counterexample.  2026-10-07 is a Wednesday, so its week runs
from Monday 2026-10-05; a record dated 2026-10-06 with ok = 5 lies inside
the this-week period, yet the code routes it to the `yesterday` branch of
the if/elif chain and the `this_week` bucket stays 0, not the period
maximum 5. -/
theorem aggregate_week_bucket_counterexample :
    claimedThisWeekBucket (fun r => r.ok) dOct7 (computePeriodBoundaries dOct7)
        [mkRecord dOct6 10 5 2 3 "t"] = 5 ∧
      (aggregate_raw_field [mkRecord dOct6 10 5 2 3 "t"] dOct7
          (computePeriodBoundaries dOct7) (fun r => r.ok)).this_week = 0 := by
  decide

/-- Claim C3, amended: each bucket is filled only from the records that the
if/elif chain routes to it (`bucketOf`, the first matching branch) — day
buckets hold the value of the last such record, week and month buckets the
maximum over such records (records taken by an earlier branch, e.g. one
dated today, yesterday or the day before yesterday inside the current week,
are excluded) — and the deltas equal the pairwise differences of
consecutive period buckets. -/
theorem aggregate_first_match_closed_form (h : List MaintRecord) (today : PyDate)
    (b : PeriodBounds) (ext : MaintRecord → Int) :
    (aggregate_raw_field h today b ext).today =
        lastValIn ext 0 (h.filter (fun r => bucketOf today b r == some .bToday)) ∧
    (aggregate_raw_field h today b ext).yesterday =
        lastValIn ext 0 (h.filter (fun r => bucketOf today b r == some .bYesterday)) ∧
    (aggregate_raw_field h today b ext).day_before_yesterday =
        lastValIn ext 0 (h.filter (fun r => bucketOf today b r == some .bDayBefore)) ∧
    (aggregate_raw_field h today b ext).this_week =
        maxValIn ext 0 (h.filter (fun r => bucketOf today b r == some .bThisWeek)) ∧
    (aggregate_raw_field h today b ext).last_week =
        maxValIn ext 0 (h.filter (fun r => bucketOf today b r == some .bLastWeek)) ∧
    (aggregate_raw_field h today b ext).week_before_last =
        maxValIn ext 0 (h.filter (fun r => bucketOf today b r == some .bWeekBeforeLast)) ∧
    (aggregate_raw_field h today b ext).this_month =
        maxValIn ext 0 (h.filter (fun r => bucketOf today b r == some .bThisMonth)) ∧
    (aggregate_raw_field h today b ext).last_month =
        maxValIn ext 0 (h.filter (fun r => bucketOf today b r == some .bLastMonth)) ∧
    (aggregate_raw_field h today b ext).month_before_last =
        maxValIn ext 0 (h.filter (fun r => bucketOf today b r == some .bMonthBeforeLast)) ∧
    (compute_delta_stats (aggregate_raw_field h today b ext)).delta_ok_day =
        (aggregate_raw_field h today b ext).today -
          (aggregate_raw_field h today b ext).yesterday ∧
    (compute_delta_stats (aggregate_raw_field h today b ext)).delta_ok_prev_day =
        (aggregate_raw_field h today b ext).yesterday -
          (aggregate_raw_field h today b ext).day_before_yesterday ∧
    (compute_delta_stats (aggregate_raw_field h today b ext)).delta_ok_week =
        (aggregate_raw_field h today b ext).this_week -
          (aggregate_raw_field h today b ext).last_week ∧
    (compute_delta_stats (aggregate_raw_field h today b ext)).delta_ok_prev_week =
        (aggregate_raw_field h today b ext).last_week -
          (aggregate_raw_field h today b ext).week_before_last ∧
    (compute_delta_stats (aggregate_raw_field h today b ext)).delta_ok_month =
        (aggregate_raw_field h today b ext).this_month -
          (aggregate_raw_field h today b ext).last_month ∧
    (compute_delta_stats (aggregate_raw_field h today b ext)).delta_ok_prev_month =
        (aggregate_raw_field h today b ext).last_month -
          (aggregate_raw_field h today b ext).month_before_last := by
  unfold aggregate_raw_field
  rw [aggregate_go]
  exact ⟨rfl, rfl, rfl, rfl, rfl, rfl, rfl, rfl, rfl, rfl, rfl, rfl, rfl, rfl, rfl⟩

/-! ## Claim C9 -/

theorem bucketOf_of_day_date (today : PyDate) (b : PeriodBounds) (r : MaintRecord)
    (hd : r.date = today ∨ r.date = b.yesterday ∨ r.date = b.day_before_yesterday) :
    bucketOf today b r = some .bToday ∨ bucketOf today b r = some .bYesterday ∨
      bucketOf today b r = some .bDayBefore := by
  unfold bucketOf
  by_cases h1 : r.date = today
  · left
    rw [if_pos h1]
  · by_cases h2 : r.date = b.yesterday
    · right; left
      rw [if_neg h1, if_pos h2]
    · by_cases h3 : r.date = b.day_before_yesterday
      · right; right
        rw [if_neg h1, if_neg h2, if_pos h3]
      · rcases hd with h | h | h <;> contradiction

/-- Claim C9: each record feeds at most one bucket (the first matching
branch of the if/elif chain), and a record dated today, yesterday or the
day before yesterday fills only its day bucket — all four week/month
aggregates (and the two further ones) are untouched by it. -/
theorem aggregate_step_single_bucket (today : PyDate) (b : PeriodBounds)
    (ext : MaintRecord → Int) (raw : RawStats) (r : MaintRecord) :
    changedBuckets raw (aggregateStep today b ext raw r) ≤ 1 ∧
    ((r.date = today ∨ r.date = b.yesterday ∨ r.date = b.day_before_yesterday) →
      (aggregateStep today b ext raw r).this_week = raw.this_week ∧
      (aggregateStep today b ext raw r).last_week = raw.last_week ∧
      (aggregateStep today b ext raw r).week_before_last = raw.week_before_last ∧
      (aggregateStep today b ext raw r).this_month = raw.this_month ∧
      (aggregateStep today b ext raw r).last_month = raw.last_month ∧
      (aggregateStep today b ext raw r).month_before_last = raw.month_before_last) := by
  constructor
  · rcases hb : bucketOf today b r with _ | bkt
    · simp [aggregateStep, hb, changedBuckets]
    · cases bkt <;> simp [aggregateStep, hb, changedBuckets] <;> split <;> omega
  · intro hd
    rcases bucketOf_of_day_date today b r hd with hb | hb | hb <;>
      simp [aggregateStep, hb]

/-! ## Claim C10 -/

/-- Claim C10, counterexample.  For a history holding one record for today
with ok = 5 and urgent = 2, the ok-series day delta is 5 − 0 = 5, but the
returned `today` value is 2: `get_statistics` merges the urgent-series
delta dict last, and it reuses the same `delta_ok_*` key names, so
`merged["delta_ok_day"]` — copied into `merged["today"]` — is the urgent
series' delta, not the ok series'. -/
theorem get_statistics_today_counterexample :
    dictGetD (get_statistics [mkRecord dOct7 10 5 2 3 "t"] dOct7) "today" 0 = 2 ∧
      (aggregate_raw_field [mkRecord dOct7 10 5 2 3 "t"] dOct7
            (computePeriodBoundaries dOct7) (fun r => r.ok)).today -
          (aggregate_raw_field [mkRecord dOct7 10 5 2 3 "t"] dOct7
            (computePeriodBoundaries dOct7) (fun r => r.ok)).yesterday = 5 ∧
      (2 : Int) ≠ 5 := by
  decide

set_option maxHeartbeats 4000000 in
/-- Claim C10, amended: on an empty history `get_statistics` returns exactly
the six bucket keys, all zero; on a non-empty history it returns the nine
ok-series bucket keys, the six delta keys and the nine urgent-prefixed
bucket keys, and the `today` entry is overwritten with the merged
`delta_ok_day` value — which, because the urgent-series delta dict is
merged last under the same key names, is the urgent series' day delta
(urgent today − urgent yesterday), not the ok series'. -/
theorem get_statistics_keys_and_today (h : List MaintRecord) (today : PyDate)
    (hne : h ≠ []) :
    get_statistics [] today =
        [("today", 0), ("yesterday", 0), ("this_week", 0), ("last_week", 0),
         ("this_month", 0), ("last_month", 0)] ∧
    (get_statistics h today).map Prod.fst =
        ["today", "yesterday", "day_before_yesterday", "this_week", "last_week",
         "week_before_last", "this_month", "last_month", "month_before_last",
         "delta_ok_day", "delta_ok_prev_day", "delta_ok_week", "delta_ok_prev_week",
         "delta_ok_month", "delta_ok_prev_month", "urgent_today", "urgent_yesterday",
         "urgent_day_before_yesterday", "urgent_this_week", "urgent_last_week",
         "urgent_week_before_last", "urgent_this_month", "urgent_last_month",
         "urgent_month_before_last"] ∧
    dictGetD (get_statistics h today) "today" 0 =
        (aggregate_raw_field h today (computePeriodBoundaries today)
            (fun r => r.urgent)).today -
          (aggregate_raw_field h today (computePeriodBoundaries today)
            (fun r => r.urgent)).yesterday := by
  obtain ⟨x, t, rfl⟩ := List.exists_cons_of_ne_nil hne
  exact ⟨rfl, rfl, rfl⟩

/-- Claim C10, witness: a concrete one-record history. -/
theorem get_statistics_keys_and_today_witness :
    dictGetD (get_statistics [mkRecord dOct6 10 5 2 3 "t"] dOct7) "today" 0 =
      (aggregate_raw_field [mkRecord dOct6 10 5 2 3 "t"] dOct7
          (computePeriodBoundaries dOct7) (fun r => r.urgent)).today -
        (aggregate_raw_field [mkRecord dOct6 10 5 2 3 "t"] dOct7
          (computePeriodBoundaries dOct7) (fun r => r.urgent)).yesterday :=
  (get_statistics_keys_and_today [mkRecord dOct6 10 5 2 3 "t"] dOct7 (by decide)).2.2

/-! ## Claim C1 -/

theorem read_fold_eq :
    ∀ (sheets : List SheetRead) (acc : ReadResult),
      sheets.foldl readSheetStep acc =
        { urgent_items := acc.urgent_items ++ sheets.filterMap (statusEntry STATUS_URGENT)
          warning_items := acc.warning_items ++ sheets.filterMap (statusEntry STATUS_WARNING)
          total_records := acc.total_records +
            (sheets.map (fun s => (sheetRowsRead s).length)).sum
          countUrgent := acc.countUrgent +
            (sheets.map (fun s => (statusFilter STATUS_URGENT (sheetRowsRead s)).length)).sum
          countWarning := acc.countWarning +
            (sheets.map (fun s => (statusFilter STATUS_WARNING (sheetRowsRead s)).length)).sum
          countOk := acc.countOk +
            (sheets.map (fun s => (statusFilter STATUS_OK (sheetRowsRead s)).length)).sum
          recalc_success := acc.recalc_success
          fileUsed := acc.fileUsed } := by
  intro sheets
  induction sheets with
  | nil => intro acc; simp
  | cons s t ih =>
    intro acc
    rw [List.foldl_cons, ih]
    obtain ⟨snm, so⟩ := s
    cases so with
    | none =>
      simp [readSheetStep, statusEntry, sheetRowsRead, statusFilter,
        List.filterMap_cons]
    | some src =>
      by_cases hu : (statusFilter STATUS_URGENT (src.filter rowNonEmpty)).isEmpty <;>
        by_cases hw : (statusFilter STATUS_WARNING (src.filter rowNonEmpty)).isEmpty <;>
          simp [readSheetStep, statusEntry, sheetRowsRead, List.filterMap_cons,
            hu, hw, List.append_assoc, Nat.add_assoc]

theorem mem_statusEntry_iff (status : String) (sheets : List SheetRead)
    (nm : String) (r : Row) :
    (∃ rows, (nm, rows) ∈ sheets.filterMap (statusEntry status) ∧ r ∈ rows) ↔
      ∃ src, (nm, some src) ∈ sheets ∧ r ∈ src ∧ rowNonEmpty r = true ∧
        rowStatus r = some status := by
  constructor
  · rintro ⟨rows, hmem, hr⟩
    rcases List.mem_filterMap.mp hmem with ⟨s, hs, hfs⟩
    unfold statusEntry at hfs
    split at hfs
    · exact absurd hfs (by simp)
    · rw [Option.some.injEq, Prod.mk.injEq] at hfs
      obtain ⟨h1, h2⟩ := hfs
      rw [← h2] at hr
      have hr2 := List.mem_filter.mp hr
      obtain ⟨hrIn, hrStat⟩ := hr2
      obtain ⟨snm, so⟩ := s
      cases so with
      | none => simp [sheetRowsRead] at hrIn
      | some src =>
        simp only [sheetRowsRead] at hrIn
        have hr3 := List.mem_filter.mp hrIn
        refine ⟨src, ?_, hr3.1, hr3.2, ?_⟩
        · simpa [← h1] using hs
        · simpa using hrStat
  · rintro ⟨src, hs, hr, hne, hst⟩
    have hrmem : r ∈ statusFilter status (sheetRowsRead (nm, some src)) := by
      refine List.mem_filter.mpr ⟨?_, ?_⟩
      · exact List.mem_filter.mpr ⟨hr, hne⟩
      · simp [hst]
    refine ⟨statusFilter status (sheetRowsRead (nm, some src)), ?_, hrmem⟩
    apply List.mem_filterMap.mpr
    refine ⟨(nm, some src), hs, ?_⟩
    unfold statusEntry
    rw [if_neg ?_]
    intro hcon
    rw [List.isEmpty_iff] at hcon
    exact absurd (hcon ▸ hrmem) (List.not_mem_nil r)

/-- Claim C1: over the sheets `read_data` reads, a row (tagged with its
sheet) appears in the returned urgent list iff its status cell equals
exactly `"ОБСЛУЖИТЬ"`, in the warning list iff it equals exactly
`"Внимание"`; each of the three status counters counts exactly the rows
whose status equals that string; and `total_records` is the number of
non-all-NaN rows read across the sheets. -/
theorem read_data_classification (env : RecalcEnv) (sheets : List SheetRead) :
    (∀ (nm : String) (r : Row),
      (∃ rows, (nm, rows) ∈ (read_data env sheets).urgent_items ∧ r ∈ rows) ↔
        ∃ src, (nm, some src) ∈ sheets ∧ r ∈ src ∧ rowNonEmpty r = true ∧
          rowStatus r = some STATUS_URGENT) ∧
    (∀ (nm : String) (r : Row),
      (∃ rows, (nm, rows) ∈ (read_data env sheets).warning_items ∧ r ∈ rows) ↔
        ∃ src, (nm, some src) ∈ sheets ∧ r ∈ src ∧ rowNonEmpty r = true ∧
          rowStatus r = some STATUS_WARNING) ∧
    (read_data env sheets).countUrgent =
      (sheets.map (fun s => (statusFilter STATUS_URGENT (sheetRowsRead s)).length)).sum ∧
    (read_data env sheets).countWarning =
      (sheets.map (fun s => (statusFilter STATUS_WARNING (sheetRowsRead s)).length)).sum ∧
    (read_data env sheets).countOk =
      (sheets.map (fun s => (statusFilter STATUS_OK (sheetRowsRead s)).length)).sum ∧
    (read_data env sheets).total_records =
      (sheets.map (fun s => (sheetRowsRead s).length)).sum := by
  unfold read_data
  rw [read_fold_eq]
  refine ⟨?_, ?_, by simp, by simp, by simp, by simp⟩
  · intro nm r
    simpa using mem_statusEntry_iff STATUS_URGENT sheets nm r
  · intro nm r
    simpa using mem_statusEntry_iff STATUS_WARNING sheets nm r

/-! ## Claim C2 -/

theorem cellMatches_iff (c : Option CellV) (n : Int) :
    cellMatches c n = true ↔ c = some (.cInt n) := by
  cases c with
  | none => simp [cellMatches]
  | some v => cases v <;> simp [cellMatches]

set_option maxRecDepth 4000 in
theorem findRowIdx_some_char {colA : List (Option CellV)} {n : Int} {i : Nat}
    (h : findRowIdx colA n = some i) :
    i < 500 ∧ colA.getD i none = some (.cInt n) := by
  unfold findRowIdx at h
  refine ⟨?_, ?_⟩
  · have := List.mem_of_find?_eq_some h
    simpa using this
  · have hp := List.find?_some (p := fun j => cellMatches (colA.getD j none) n) h
    exact (cellMatches_iff _ _).mp hp

set_option maxRecDepth 4000 in
theorem findRowIdx_none_char {colA : List (Option CellV)} {n : Int}
    (h : findRowIdx colA n = none) :
    ∀ i, i < 500 → colA.getD i none ≠ some (.cInt n) := by
  unfold findRowIdx at h
  intro i hi hcon
  have hall := List.find?_eq_none.mp h i (by simpa using hi)
  exact hall ((cellMatches_iff _ _).mpr hcon)

theorem find?_updateSheet (sheets : List (String × WSheet)) (name : String)
    (f : WSheet → WSheet) :
    (updateSheet sheets name f).find? (fun p => p.1 == name) =
      (sheets.find? (fun p => p.1 == name)).map (fun p => (p.1, f p.2)) := by
  induction sheets with
  | nil => rfl
  | cons x t ih =>
    obtain ⟨nm, s⟩ := x
    by_cases hn : nm = name
    · rw [updateSheet, if_pos hn]
      rw [List.find?_cons_of_pos _ (by simpa using hn),
        List.find?_cons_of_pos _ (by simpa using hn)]
      rfl
    · rw [updateSheet, if_neg hn]
      rw [List.find?_cons_of_neg _ (by simpa using hn),
        List.find?_cons_of_neg _ (by simpa using hn)]
      exact ih

theorem getD_setCell (l : List (Option CellV)) (i : Nat) (v : Option CellV) :
    (setCell l i v).getD i none = v := by
  unfold setCell
  split
  · rename_i hlt
    rw [List.getD_eq_getElem?_getD, List.getElem?_set_eq_of_lt _ hlt]
    rfl
  · rename_i hge
    have h1 : l.length ≤ i := by omega
    rw [List.append_assoc, List.getD_eq_getElem?_getD, List.getElem?_append_right h1]
    rw [List.getElem?_append_right (by simp [List.length_replicate])]
    simp [List.length_replicate]

set_option maxRecDepth 8000 in
/-- Claim C2: `mark_as_serviced` succeeds — and then writes the current date
into the column-I ("Дата последнего ТО") cell of the found row — exactly
when the Excel file exists, is not locked, the named sheet is in the
workbook, the row number parses as an integer, and some cell of column A
within worksheet rows 5..504 holds that integer; in every other case it
fails and the workbook is left untouched. -/
theorem mark_as_serviced_success_iff (env : ExcelEnv) (sheet_name : String)
    (rowNumInt : Option Int) (today : PyDate) :
    ((mark_as_serviced env sheet_name rowNumInt today).1 = true ↔
      env.fileExists = true ∧ env.fileLocked = false ∧
        ∃ sh, env.sheets.find? (fun p => p.1 == sheet_name) = some sh ∧
          ∃ n, rowNumInt = some n ∧
            ∃ i, i < 500 ∧ sh.2.colA.getD i none = some (CellV.cInt n)) ∧
    ((mark_as_serviced env sheet_name rowNumInt today).1 = false →
      (mark_as_serviced env sheet_name rowNumInt today).2 = env) ∧
    ((mark_as_serviced env sheet_name rowNumInt today).1 = true →
      ∃ sh n i, env.sheets.find? (fun p => p.1 == sheet_name) = some sh ∧
        rowNumInt = some n ∧ findRowIdx sh.2.colA n = some i ∧
        (mark_as_serviced env sheet_name rowNumInt today).2 =
          { env with
            sheets := updateSheet env.sheets sheet_name
              (fun s => { s with colI := setCell s.colI i (some (.cDate today)) }) } ∧
        (mark_as_serviced env sheet_name rowNumInt today).2.sheets.find?
            (fun p => p.1 == sheet_name) =
          some (sh.1, { sh.2 with colI := setCell sh.2.colI i (some (.cDate today)) }) ∧
        (setCell sh.2.colI i (some (.cDate today))).getD i none = some (.cDate today)) := by
  cases hfe : env.fileExists with
  | false =>
    have hres : mark_as_serviced env sheet_name rowNumInt today = (false, env) := by
      simp [mark_as_serviced, hfe]
    rw [hres]
    refine ⟨?_, fun _ => rfl, by simp⟩
    simp [hfe]
  | true =>
    cases hfl : env.fileLocked with
    | true =>
      have hres : mark_as_serviced env sheet_name rowNumInt today = (false, env) := by
        simp [mark_as_serviced, hfe, hfl]
      rw [hres]
      refine ⟨?_, fun _ => rfl, by simp⟩
      simp [hfl]
    | false =>
      cases hfind : env.sheets.find? (fun p => p.1 == sheet_name) with
      | none =>
        have hres : mark_as_serviced env sheet_name rowNumInt today = (false, env) := by
          simp [mark_as_serviced, hfe, hfl, hfind]
        rw [hres]
        refine ⟨?_, fun _ => rfl, by simp⟩
        simp only [Bool.false_eq_true, false_iff, not_and]
        rintro - - ⟨sh2, hsh2, -⟩
        exact absurd hsh2 (by simp)
      | some sh =>
        cases rowNumInt with
        | none =>
          have hres : mark_as_serviced env sheet_name none today = (false, env) := by
            simp [mark_as_serviced, hfe, hfl, hfind]
          rw [hres]
          refine ⟨?_, fun _ => rfl, by simp⟩
          simp only [Bool.false_eq_true, false_iff, not_and]
          rintro - - ⟨sh2, hsh2, n, hn, -⟩
          exact absurd hn (by simp)
        | some n =>
          cases hrow : findRowIdx sh.2.colA n with
          | none =>
            have hres : mark_as_serviced env sheet_name (some n) today = (false, env) := by
              simp [mark_as_serviced, hfe, hfl, hfind, hrow]
            rw [hres]
            refine ⟨?_, fun _ => rfl, by simp⟩
            simp only [Bool.false_eq_true, false_iff, not_and]
            rintro - - ⟨sh2, hsh2, m, hm, i, hi, hcell⟩
            rw [Option.some.injEq] at hsh2 hm
            subst hsh2
            subst hm
            exact findRowIdx_none_char hrow i hi hcell
          | some i =>
            have hres : mark_as_serviced env sheet_name (some n) today =
                (true,
                  { env with
                    sheets := updateSheet env.sheets sheet_name
                      (fun s =>
                        { s with colI := setCell s.colI i (some (.cDate today)) }) }) := by
              simp [mark_as_serviced, hfe, hfl, hfind, hrow]
            rw [hres]
            refine ⟨?_, by simp, ?_⟩
            · simp only [true_iff]
              obtain ⟨hi, hcell⟩ := findRowIdx_some_char hrow
              exact ⟨by trivial, by trivial, sh, rfl, n, rfl, i, hi, hcell⟩
            · intro _
              refine ⟨sh, n, i, by trivial, by trivial, hrow, by simp [hfe, hfl], ?_,
                getD_setCell _ _ _⟩
              show (updateSheet env.sheets sheet_name
                  (fun s => { s with colI := setCell s.colI i (some (.cDate today)) })).find?
                  (fun p => p.1 == sheet_name) = _
              rw [find?_updateSheet, hfind]
              rfl

/-! ## Claim C7 -/

/-- Claim C7: every recalculation failure (xlwings unavailable, missing
Excel file, an exception in the xlwings block, unverified tmp save) yields
`(False, None)`; `read_data` then falls back to the original file and
reports `recalc_success = False`; and the rendered body holds the
"ВНИМАНИЕ! ТАБЛИЦА ОТКРЫТА!" warning block exactly when `recalc_success` is
false. -/
theorem recalc_fallback_and_warning_block (env : RecalcEnv) :
    (recalculate_formulas env = (true, some .tmpFile) ↔
      env.xlwingsAvailable = true ∧ env.fileExists = true ∧
        env.excelOpRaises = false ∧ env.tmpVerifyOk = true) ∧
    ((env.xlwingsAvailable = false ∨ env.fileExists = false ∨
        env.excelOpRaises = true ∨ env.tmpVerifyOk = false) →
      recalculate_formulas env = (false, none)) ∧
    (∀ sheets : List SheetRead,
      (read_data env sheets).fileUsed = .originalFile ↔
        (read_data env sheets).recalc_success = false) ∧
    (∀ (urgent warning : List (String × List Row)) (total cUrgent cWarning cOk : Nat)
        (recalc chartOk : Bool),
      EmailBlock.warningTableOpen ∈
          create_body urgent warning total cUrgent cWarning cOk recalc chartOk ↔
        recalc = false) := by
  obtain ⟨x, f, e, t⟩ := env
  refine ⟨?_, ?_, ?_, ?_⟩
  · cases x <;> cases f <;> cases e <;> cases t <;> simp [recalculate_formulas]
  · cases x <;> cases f <;> cases e <;> cases t <;> simp [recalculate_formulas]
  · intro sheets
    rw [read_data, read_fold_eq]
    cases x <;> cases f <;> cases e <;> cases t <;> simp [recalculate_formulas]
  · intro urgent warning total cUrgent cWarning cOk recalc chartOk
    cases recalc <;> cases chartOk <;>
      by_cases hu : urgent.isEmpty <;> by_cases hw : warning.isEmpty <;>
        simp [create_body, hu, hw]

/-! ## Claim C6 -/

/-- Claim C6: `run` performs read-and-classify, then the statistics update,
and — only when something was classified urgent or warning — renders the
body and sends the digest to exactly `Config.RECIPIENTS`; with zero urgent
and zero warning rows it stops right after the statistics update and no
email is sent. -/
theorem run_steps_and_recipients (env : RecalcEnv) (sheets : List SheetRead)
    (h : List MaintRecord) (today : PyDate) (ts : String) (chartOk : Bool) :
    ((run env sheets h today ts chartOk).1.take 2 =
      [.readSpreadsheet, .updateStats]) ∧
    ((run env sheets h today ts chartOk).2 =
      update_statistics h today ((read_data env sheets).total_records : Int)
        ((read_data env sheets).countOk : Int)
        ((read_data env sheets).countUrgent : Int)
        ((read_data env sheets).countWarning : Int) ts) ∧
    (totalAlarm (read_data env sheets) = 0 ∧ totalWarning (read_data env sheets) = 0 →
      (run env sheets h today ts chartOk).1 = [.readSpreadsheet, .updateStats] ∧
        ∀ rcpts, RunEvent.sendEmail rcpts ∉ (run env sheets h today ts chartOk).1) ∧
    (¬(totalAlarm (read_data env sheets) = 0 ∧
        totalWarning (read_data env sheets) = 0) →
      (run env sheets h today ts chartOk).1 =
        [.readSpreadsheet, .updateStats, .renderBody] ++
          (if (read_data env sheets).urgent_items.isEmpty then []
            else [.generateDataFile]) ++
          [.sendEmail RECIPIENTS]) ∧
    (∀ rcpts, RunEvent.sendEmail rcpts ∈ (run env sheets h today ts chartOk).1 →
      rcpts = RECIPIENTS) := by
  by_cases hz : totalAlarm (read_data env sheets) = 0 ∧
      totalWarning (read_data env sheets) = 0
  · refine ⟨?_, ?_, ?_, ?_, ?_⟩ <;>
      simp [run, hz]
  · by_cases hu : (read_data env sheets).urgent_items.isEmpty <;>
      refine ⟨?_, ?_, ?_, ?_, ?_⟩ <;>
        simp [run, hz, hu]
